import Mathlib

/-
Verification of the weather-data acquisition and forecast layer of the
Open-Source-Quartz-Solar-Forecast repository.

Shallow embedding conventions:
- Python floats used only in comparisons and as opaque payload values are
  modelled as rationals (ℚ); NaN behaviour is out of scope.
- Python datetimes are modelled as (year, month, day) triples plus, where a
  time of day matters, integer epoch seconds.
- Exceptions are modelled with `Except Err`; distinct failure sites get
  distinct `Err` constructors mirroring the specification error kinds
  (in CPython several of these are a plain ValueError with different
  messages, plus AttributeError / NameError for the SDK and unbound-local
  failure modes).
- The external OpenMeteo client is an oracle function `Fetch`; each
  operation additionally returns the list of (url, params) requests it
  issued, so that "no network call was made" is the trace being empty.
-/

namespace QSF

/-- Error kinds produced by the embedded code paths. -/
inductive Err where
  /-- ValueError raised by `WeatherService._validate_coordinates`. -/
  | invalidCoordinate
  /-- ValueError raised by `WeatherService._validate_date_format` (both the
  unparseable-date and the end-before-start cause collapse to this kind). -/
  | invalidDateFormat
  /-- Failure of the response parser when the granularity bucket or a
  requested variable array is absent (AttributeError on the SDK response). -/
  | malformedResponse
  /-- pandas ValueError: DataFrame columns of unequal length. -/
  | lengthMismatch
  /-- KeyError: params dict lacks the granularity key. -/
  | missingParamsKey
  /-- KeyError: DataFrame column selection with an absent label. -/
  | keyError
  /-- Other ValueError (bad model path, unparseable timestamp, bad strptime
  input outside the validators). -/
  | valueError
  /-- NameError: reference to a local variable that was never assigned. -/
  | nameError
deriving DecidableEq, Repr

/-- Decidable equality for `Except`, used to evaluate the embedded
operations on concrete witnesses. -/
instance exceptDecEq {ε α : Type} [DecidableEq ε] [DecidableEq α] :
    DecidableEq (Except ε α)
  | .ok a, .ok b =>
    if h : a = b then .isTrue (by rw [h]) else .isFalse (by simp [h])
  | .ok _, .error _ => .isFalse (by simp)
  | .error _, .ok _ => .isFalse (by simp)
  | .error a, .error b =>
    if h : a = b then .isTrue (by rw [h]) else .isFalse (by simp [h])

/-! ## Calendar dates and `datetime.strptime(s, "%Y-%m-%d")` -/

/-- A calendar date as produced by `datetime.strptime(s, "%Y-%m-%d")`. -/
structure SimpleDate where
  y : Nat
  m : Nat
  d : Nat
deriving DecidableEq, Repr

/-- Gregorian leap-year predicate, as used by `datetime`. -/
def isLeapYear (y : Nat) : Bool :=
  y % 4 = 0 && (y % 100 ≠ 0 || y % 400 = 0)

/-- Number of days in a month, as enforced by the `datetime` constructor. -/
def daysInMonth (y m : Nat) : Nat :=
  if m = 2 then (if isLeapYear y then 29 else 28)
  else if m = 4 ∨ m = 6 ∨ m = 9 ∨ m = 11 then 30
  else 31

/-- Split a character list on a separator character (Python `str.split(sep)`
semantics: n separators give n+1 groups, empty groups preserved). -/
def splitOnChar (sep : Char) (cs : List Char) : List (List Char) :=
  match cs with
  | [] => [[]]
  | c :: rest =>
    let r := splitOnChar sep rest
    if c = sep then [] :: r
    else
      match r with
      | [] => [[c]]
      | g :: gs => (c :: g) :: gs

/-- Decimal value of a non-empty all-digit character list; `none` otherwise. -/
def digitsToNat (cs : List Char) : Option Nat :=
  match cs with
  | [] => none
  | _ =>
    if cs.all (fun c => decide ('0' ≤ c ∧ c ≤ '9')) then
      some (cs.foldl (fun acc c => acc * 10 + (c.toNat - '0'.toNat)) 0)
    else none

/-- The CPython `_strptime` token for `%Y`: exactly four digits. -/
def yearToken (cs : List Char) : Option Nat :=
  if cs.length = 4 then digitsToNat cs else none

/-- The CPython `_strptime` token for `%m`: one or two digits, value 1..12
(`1[0-2]|0[1-9]|[1-9]`). -/
def monthToken (cs : List Char) : Option Nat :=
  match digitsToNat cs with
  | none => none
  | some v => if cs.length ≤ 2 ∧ 1 ≤ v ∧ v ≤ 12 then some v else none

/-- The CPython `_strptime` token for `%d`: one or two digits, value 1..31
(`3[01]|[12]\d|0[1-9]|[1-9]`). -/
def dayToken (cs : List Char) : Option Nat :=
  match digitsToNat cs with
  | none => none
  | some v => if cs.length ≤ 2 ∧ 1 ≤ v ∧ v ≤ 31 then some v else none

/-- `datetime.strptime(s, "%Y-%m-%d")`: the string must decompose as
year-month-day digit tokens with nothing left over, and the triple must be a
valid proleptic-Gregorian date with year ≥ 1 (the `datetime` range). Returns
`none` exactly when CPython raises ValueError. -/
def strptimeYmd (s : String) : Option SimpleDate :=
  match splitOnChar '-' s.data with
  | [ys, ms, ds] =>
    match yearToken ys, monthToken ms, dayToken ds with
    | some y, some m, some d =>
      if 1 ≤ y ∧ d ≤ daysInMonth y m then some ⟨y, m, d⟩ else none
    | _, _, _ => none
  | _ => none

/-- Python `datetime` comparison restricted to dates: lexicographic on
(year, month, day). -/
def dateLt (a b : SimpleDate) : Bool :=
  decide (a.y < b.y ∨ (a.y = b.y ∧ (a.m < b.m ∨ (a.m = b.m ∧ a.d < b.d))))

/-- Days since 1970-01-01 of a civil date (Howard Hinnant `days_from_civil`,
used to give the embedded `timedelta` arithmetic real calendar semantics). -/
def daysFromCivil (dt : SimpleDate) : Int :=
  let m : Int := dt.m
  let y : Int := (if m ≤ 2 then (dt.y : Int) - 1 else (dt.y : Int))
  let era : Int := (if 0 ≤ y then y else y - 399) / 400
  let yoe : Int := y - era * 400
  let doy : Int := (153 * (m + (if 2 < m then -3 else 9)) + 2) / 5 + (dt.d : Int) - 1
  let doe : Int := yoe * 365 + yoe / 4 - yoe / 100 + doy
  era * 146097 + doe - 719468

/-- Civil date of a days-since-1970 count (Howard Hinnant `civil_from_days`). -/
def civilFromDays (z0 : Int) : SimpleDate :=
  let z : Int := z0 + 719468
  let era : Int := (if 0 ≤ z then z else z - 146096) / 146097
  let doe : Int := z - era * 146097
  let yoe : Int := (doe - doe / 1460 + doe / 36524 - doe / 146096) / 365
  let y : Int := yoe + era * 400
  let doy : Int := doe - (365 * yoe + yoe / 4 - yoe / 100)
  let mp : Int := (5 * doy + 2) / 153
  let d : Int := doy - (153 * mp + 2) / 5 + 1
  let m : Int := mp + (if mp < 10 then 3 else -9)
  ⟨(if m ≤ 2 then y + 1 else y).toNat, m.toNat, d.toNat⟩

/-- Left-pad a decimal rendering with zeros to a given width. -/
def padNat (w n : Nat) : String :=
  let s := toString n
  if s.length < w then String.mk (List.replicate (w - s.length) '0') ++ s else s

/-- `datetime.strftime("%Y-%m-%d")`. -/
def formatDate (dt : SimpleDate) : String :=
  padNat 4 dt.y ++ "-" ++ padNat 2 dt.m ++ "-" ++ padNat 2 dt.d

/-- Midnight epoch seconds of a civil date. -/
def dateToSecs (dt : SimpleDate) : Int :=
  daysFromCivil dt * 86400

/-- `Timestamp.strftime("%Y-%m-%d")` of an epoch-seconds timestamp. -/
def strftimeDate (now : Int) : String :=
  formatDate (civilFromDays (now / 86400))

/-! ## DataFrames (the slice of pandas the sources use) -/

/-- A cell value: a numeric weather/feature value or a timestamp. -/
inductive Value where
  | num (x : ℚ)
  | time (ts : Int)
deriving DecidableEq, Repr

/-- A Python dict of named columns, insertion-ordered. -/
abbrev Dict := List (String × List Value)

/-- A pandas DataFrame: named columns in order, each a list of cells. -/
structure Table where
  cols : Dict
deriving DecidableEq, Repr

/-- Python dict assignment `d[k] = v`: overwrite in place if the key exists,
else append at the end (insertion order preserved). -/
def dictInsert {α : Type} (d : List (String × α)) (k : String) (v : α) :
    List (String × α) :=
  if d.any (fun p => decide (p.1 = k)) then
    d.map (fun p => if p.1 = k then (k, v) else p)
  else d ++ [(k, v)]

/-- Row count of a column dict (pandas index length: the common column
length, read off the first column; 0 for an empty frame). -/
def nRowsL (d : Dict) : Nat :=
  match d with
  | [] => 0
  | c :: _ => c.2.length

/-- Row count of a DataFrame. -/
def nRowsT (t : Table) : Nat := nRowsL t.cols

/-- `pd.DataFrame(data=dict)`: requires all columns to have equal length,
otherwise raises ValueError. -/
def mkDataFrame (d : Dict) : Except Err Table :=
  match d with
  | [] => .ok ⟨[]⟩
  | (_, v) :: rest =>
    if rest.all (fun p => decide (p.2.length = v.length)) then .ok ⟨d⟩
    else .error .lengthMismatch

/-- `pd.date_range(start, end, freq, inclusive="left")` on epoch seconds:
the points start + k*freq that are ≥ start and < end (the closed range with
the right endpoint dropped when it lands exactly on the grid). -/
def numStepsLeft (d interval : Int) : Nat :=
  if d % interval = 0 then (d / interval).toNat else (d / interval).toNat + 1

/-- The timestamps of `pd.date_range(..., inclusive="left")`. -/
def dateRangeLeft (start endT interval : Int) : List Int :=
  if 0 < interval ∧ 0 ≤ endT - start then
    (List.range (numStepsLeft (endT - start) interval)).map
      (fun k : Nat => start + (k : Int) * interval)
  else []

/-! ## The OpenMeteo request/response model (`weather/open_meteo.py`) -/

/-- One granularity bucket of an OpenMeteo response: time-range metadata
(`Time()`, `TimeEnd()`, `Interval()`, epoch seconds) plus the positional
variable value arrays (`Variables(i).ValuesAsNumpy()`). -/
structure TimeBucket where
  time : Int
  timeEnd : Int
  interval : Int
  varArrays : List (List ℚ)
deriving DecidableEq, Repr

/-- An OpenMeteo API response; an absent bucket is what makes
`response.Hourly()` / `response.Minutely15()` return None. -/
structure Response where
  hourly : Option TimeBucket
  minutely15 : Option TimeBucket
deriving DecidableEq, Repr

/-- The params dict sent with a request. Keys absent from a given call site
are `none` (the historical call sends no timezone, the hourly call sends no
minutely_15 list, and so on). -/
structure Params where
  latitude : ℚ
  longitude : ℚ
  hourly : Option (List String)
  minutely_15 : Option (List String)
  timezone : Option String
  start_date : String
  end_date : String
deriving DecidableEq, Repr

/-- The 25-variable hourly list of
`WeatherDataHandler.get_hourly_weather_data_with_forecast`. -/
def HOURLY_VARIABLES : List String :=
  ["temperature_2m", "relative_humidity_2m", "dew_point_2m", "precipitation",
   "surface_pressure", "cloud_cover", "cloud_cover_low", "cloud_cover_mid",
   "cloud_cover_high", "visibility", "wind_speed_10m", "wind_speed_80m",
   "wind_speed_120m", "wind_speed_180m", "wind_direction_10m",
   "wind_direction_80m", "wind_direction_120m", "wind_direction_180m",
   "is_day", "sunshine_duration", "shortwave_radiation", "direct_radiation",
   "diffuse_radiation", "direct_normal_irradiance", "terrestrial_radiation"]

/-- The 17-variable list of
`WeatherDataHandler.get_15_minutely_weather_data_with_forecast`. -/
def MINUTELY_15_VARIABLES : List String :=
  ["temperature_2m", "relative_humidity_2m", "dew_point_2m", "precipitation",
   "surface_pressure", "cloud_cover", "cloud_cover_low", "cloud_cover_mid",
   "cloud_cover_high", "wind_speed_10m", "wind_direction_10m", "is_day",
   "shortwave_radiation", "direct_radiation", "diffuse_radiation",
   "direct_normal_irradiance", "terrestrial_radiation"]

/-- The hourly list of `WeatherDataHandler.get_weather_data_historical`. -/
def HISTORICAL_VARIABLES : List String :=
  ["temperature_2m", "relative_humidity_2m", "dew_point_2m", "precipitation",
   "surface_pressure", "cloud_cover", "cloud_cover_low", "cloud_cover_mid",
   "cloud_cover_high", "wind_speed_10m", "wind_direction_10m", "is_day",
   "shortwave_radiation", "direct_radiation", "diffuse_radiation",
   "direct_normal_irradiance", "terrestrial_radiation"]

/-- The loop `for i, variable in enumerate(vars): data[variable] =
bucket.Variables(i).ValuesAsNumpy()`. An absent positional variable array
(index beyond the response) fails like the other absent-data accesses. -/
def attachVariables (arrays : List (List ℚ)) (vars : List String) (i : Nat)
    (acc : Dict) : Except Err Dict :=
  match vars with
  | [] => .ok acc
  | v :: rest =>
    match arrays.get? i with
    | none => .error .malformedResponse
    | some vs => attachVariables arrays rest (i + 1) (dictInsert acc v (vs.map Value.num))

/-- `WeatherDataProcessor.process_hourly_data`. -/
def process_hourly_data (response : Response) (params : Params) : Except Err Table :=
  match response.hourly with
  | none => .error .malformedResponse
  | some hourly =>
    let dates := dateRangeLeft hourly.time hourly.timeEnd hourly.interval
    match params.hourly with
    | none => .error .missingParamsKey
    | some vars =>
      match attachVariables hourly.varArrays vars 0 [("date", dates.map Value.time)] with
      | .error e => .error e
      | .ok hourly_data => mkDataFrame hourly_data

/-- `WeatherDataProcessor.process_minutely_15_data`. -/
def process_minutely_15_data (response : Response) (params : Params) : Except Err Table :=
  match response.minutely15 with
  | none => .error .malformedResponse
  | some minutely_15 =>
    let dates := dateRangeLeft minutely_15.time minutely_15.timeEnd minutely_15.interval
    match params.minutely_15 with
    | none => .error .missingParamsKey
    | some vars =>
      match attachVariables minutely_15.varArrays vars 0 [("date", dates.map Value.time)] with
      | .error e => .error e
      | .ok minutely_15_data => mkDataFrame minutely_15_data

/-- `WeatherDataProcessor.process_historical_data` (same body as the hourly
processor in the source). -/
def process_historical_data (response : Response) (params : Params) : Except Err Table :=
  match response.hourly with
  | none => .error .malformedResponse
  | some hourly =>
    let dates := dateRangeLeft hourly.time hourly.timeEnd hourly.interval
    match params.hourly with
    | none => .error .missingParamsKey
    | some vars =>
      match attachVariables hourly.varArrays vars 0 [("date", dates.map Value.time)] with
      | .error e => .error e
      | .ok historical_data => mkDataFrame historical_data

/-- The external OpenMeteo client + `WeatherDataFetcher.fetch_data` as an
oracle: one request, one response. -/
abbrev Fetch := String → Params → Response

/-- The process-local response cache. -/
abbrev Cache := List ((String × Params) × Table)

def forecastUrl : String := "https://api.open-meteo.com/v1/forecast"

def archiveUrl : String := "https://archive-api.open-meteo.com/v1/archive"

/-- Modelled from the spec: `WeatherDataHandler._get_from_cache_url_params`
is called by the source but not among the provided files; the spec describes
a process-local cache "keyed by the exact (endpoint, parameter-set) tuple".
Returns the key and the cached parsed table, if any. -/
def getFromCacheUrlParams (cache : Cache) (url : String) (params : Params) :
    (String × Params) × Option Table :=
  ((url, params), (cache.find? (fun e => decide (e.1 = (url, params)))).map (fun e => e.2))

/-- Modelled from the spec: `WeatherDataHandler._save_to_cache` is called by
the source but not among the provided files; per the spec the cache maps the
request key to the parsed table and is never invalidated. -/
def saveToCache (cache : Cache) (key : String × Params) (df : Table) : Cache :=
  cache ++ [(key, df)]

/-- The params dict literal of
`WeatherDataHandler.get_hourly_weather_data_with_forecast`. -/
def hourlyParams (latitude longitude : ℚ) (start_date end_date : String) : Params :=
  { latitude := latitude, longitude := longitude, hourly := some HOURLY_VARIABLES,
    minutely_15 := none, timezone := some "GMT",
    start_date := start_date, end_date := end_date }

/-- The params dict literal of
`WeatherDataHandler.get_15_minutely_weather_data_with_forecast`. -/
def minutelyParams (latitude longitude : ℚ) (start_date end_date : String) : Params :=
  { latitude := latitude, longitude := longitude, hourly := none,
    minutely_15 := some MINUTELY_15_VARIABLES, timezone := some "GMT",
    start_date := start_date, end_date := end_date }

/-- The params dict literal of
`WeatherDataHandler.get_weather_data_historical` (note: no timezone key). -/
def historicalParams (latitude longitude : ℚ) (start_date end_date : String) : Params :=
  { latitude := latitude, longitude := longitude, hourly := some HISTORICAL_VARIABLES,
    minutely_15 := none, timezone := none,
    start_date := start_date, end_date := end_date }

/-- `WeatherDataHandler.get_hourly_weather_data_with_forecast`: cache lookup,
then on a miss fetch, parse and store. Returns (result, new cache, issued
requests). -/
def get_hourly_weather_data_with_forecast (fetch : Fetch) (cache : Cache)
    (latitude longitude : ℚ) (start_date end_date : String) :
    Except Err Table × Cache × List (String × Params) :=
  let params := hourlyParams latitude longitude start_date end_date
  let kc := getFromCacheUrlParams cache forecastUrl params
  match kc.2 with
  | some df => (.ok df, cache, [])
  | none =>
    match process_hourly_data (fetch forecastUrl params) params with
    | .error e => (.error e, cache, [(forecastUrl, params)])
    | .ok df => (.ok df, saveToCache cache kc.1 df, [(forecastUrl, params)])

/-- `WeatherDataHandler.get_15_minutely_weather_data_with_forecast`:
fetch then parse (no cache in this path). -/
def get_15_minutely_weather_data_with_forecast (fetch : Fetch)
    (latitude longitude : ℚ) (start_date end_date : String) :
    Except Err Table × List (String × Params) :=
  let params := minutelyParams latitude longitude start_date end_date
  (process_minutely_15_data (fetch forecastUrl params) params, [(forecastUrl, params)])

/-- `WeatherDataHandler.get_weather_data_historical`: fetch then parse from
the archive endpoint (no cache in this path). -/
def get_weather_data_historical (fetch : Fetch)
    (latitude longitude : ℚ) (start_date end_date : String) :
    Except Err Table × List (String × Params) :=
  let params := historicalParams latitude longitude start_date end_date
  (process_historical_data (fetch archiveUrl params) params, [(archiveUrl, params)])

/-- `WeatherService._validate_coordinates`. -/
def validate_coordinates (latitude longitude : ℚ) : Except Err Unit :=
  if ¬(-90 ≤ latitude ∧ latitude ≤ 90 ∧ -180 ≤ longitude ∧ longitude ≤ 180) then
    .error .invalidCoordinate
  else .ok ()

/-- `WeatherService._validate_date_format`: parse both dates; an inner
end-before-start ValueError is caught by the same `except ValueError` as a
parse failure and re-raised as the single invalid-date-format kind. -/
def validate_date_format (start_date end_date : String) : Except Err Unit :=
  match strptimeYmd start_date, strptimeYmd end_date with
  | some s, some e => if dateLt e s then .error .invalidDateFormat else .ok ()
  | _, _ => .error .invalidDateFormat

/-- `WeatherService.get_hourly_weather`: validate coordinates, validate
dates, then delegate to the hourly handler. -/
def get_hourly_weather (fetch : Fetch) (cache : Cache)
    (latitude longitude : ℚ) (start_date end_date : String) :
    Except Err Table × Cache × List (String × Params) :=
  match validate_coordinates latitude longitude with
  | .error e => (.error e, cache, [])
  | .ok _ =>
    match validate_date_format start_date end_date with
    | .error e => (.error e, cache, [])
    | .ok _ => get_hourly_weather_data_with_forecast fetch cache latitude longitude start_date end_date

/-- `WeatherService.get_minutely_weather`. -/
def get_minutely_weather (fetch : Fetch)
    (latitude longitude : ℚ) (start_date end_date : String) :
    Except Err Table × List (String × Params) :=
  match validate_coordinates latitude longitude with
  | .error e => (.error e, [])
  | .ok _ =>
    match validate_date_format start_date end_date with
    | .error e => (.error e, [])
    | .ok _ => get_15_minutely_weather_data_with_forecast fetch latitude longitude start_date end_date

/-- `WeatherService.get_historical_weather`. -/
def get_historical_weather (fetch : Fetch)
    (latitude longitude : ℚ) (start_date end_date : String) :
    Except Err Table × List (String × Params) :=
  match validate_coordinates latitude longitude with
  | .error e => (.error e, [])
  | .ok _ =>
    match validate_date_format start_date end_date with
    | .error e => (.error e, [])
    | .ok _ => get_weather_data_historical fetch latitude longitude start_date end_date

/-! ## `forecasts/tryolabs_forecast.py`: SolarPowerPredictor -/

/-- The `PANEL_COLUMNS` list of `SolarPowerPredictor.get_data`. -/
def PANEL_COLUMNS : List String :=
  ["latitude_rounded", "longitude_rounded", "orientation", "tilt", "kwp"]

/-- DataFrame column selection `df[cols]`: pick the named columns in the
given order; a missing label raises KeyError. -/
def selectCols (t : Table) (names : List String) : Except Err Table :=
  match names.mapM (fun nm => t.cols.find? (fun c => decide (c.1 = nm))) with
  | none => .error .keyError
  | some cs => .ok ⟨cs⟩

/-- Lines 97-112 of `SolarPowerPredictor.get_data`: assign the five site
attributes as scalar-broadcast columns, then reorder so the panel columns
lead and the remaining columns keep their original order. -/
def panelAssemble (weather_data : Table)
    (latitude longitude orientation tilt kwp : ℚ) : Except Err Table :=
  let w1 := dictInsert weather_data.cols "latitude_rounded"
    (List.replicate (nRowsL weather_data.cols) (Value.num latitude))
  let w2 := dictInsert w1 "longitude_rounded"
    (List.replicate (nRowsL w1) (Value.num longitude))
  let w3 := dictInsert w2 "orientation"
    (List.replicate (nRowsL w2) (Value.num orientation))
  let w4 := dictInsert w3 "tilt"
    (List.replicate (nRowsL w3) (Value.num tilt))
  let w5 := dictInsert w4 "kwp"
    (List.replicate (nRowsL w4) (Value.num kwp))
  let cols := PANEL_COLUMNS ++
    (w5.map Prod.fst).filter (fun c => !decide (c ∈ PANEL_COLUMNS))
  selectCols ⟨w5⟩ cols

/-- `SolarPowerPredictor.get_data` with `datetime.datetime.today()` passed
explicitly as epoch seconds. Parses the start date, derives the end date two
days later, and — only when the start date is not more than three months
(90 days) in the past — fetches 15-minutely weather through the service.
On the older-than-3-months branch the source merely prints a notice and
never assigns `weather_data`, so the subsequent column assignments hit an
unbound local (NameError). Returns (result, issued requests). -/
def get_data (fetch : Fetch) (today : Int)
    (latitude longitude : ℚ) (start_date : String)
    (kwp orientation tilt : ℚ) :
    Except Err Table × List (String × Params) :=
  match strptimeYmd start_date with
  | none => (.error .valueError, [])
  | some start_dt =>
    let end_date := formatDate (civilFromDays (daysFromCivil start_dt + 2))
    let threeMonthsAgo := today - 90 * 86400
    if dateToSecs start_dt < threeMonthsAgo then
      -- print-only notice; weather_data is left unbound
      (.error .nameError, [])
    else
      match get_minutely_weather fetch latitude longitude start_date end_date with
      | (.error e, tr) => (.error e, tr)
      | (.ok weather_data, tr) =>
        match panelAssemble weather_data latitude longitude orientation tilt kwp with
        | .error e => (.error e, tr)
        | .ok t => (.ok t, tr)

/-! ## `forecast.py`: run_xgboost_forecast -/

/-- The PV site record consumed by the forecast entry points. -/
structure PVSite where
  latitude : ℚ
  longitude : ℚ
  capacity_kwp : ℚ
  tilt : ℚ
  orientation : ℚ
deriving DecidableEq, Repr

/-- `SolarPowerPredictor.__init__` path checks: a falsy (empty) model path
or a path whose last dot-component is not "joblib" raises ValueError. -/
def solarPowerPredictorInit (model_path : String) : Except Err Unit :=
  if model_path = "" then .error .valueError
  else if ((splitOnChar '.' model_path.data).getLastD []).asString ≠ "joblib" then
    .error .valueError
  else .ok ()

/-- A prediction table as produced by
`SolarPowerPredictor.predict_power_output`: rows of (date, power_wh). -/
abbrev PredRow := Int × ℚ

/-- `run_xgboost_forecast`, with the opaque trained model reached through
`predictPower` (the whole `predict_power_output` pipeline as an oracle over
the start-date string and site attributes), `toDatetime` standing for
`pd.to_datetime` on the caller-supplied timestamp string, and `now` the
current epoch-seconds time. Returns the result together with the number of
times the predictor was invoked. On the `ts = None` branch the source binds
both `start_date` and `start_time`; on the other branch only `start_time`
is bound, so the later `start_date=start_date` keyword argument evaluates an
unbound local (NameError) before any prediction happens. -/
def run_xgboost_forecast
    (predictPower : ℚ → ℚ → String → ℚ → ℚ → ℚ → List PredRow)
    (toDatetime : String → Option Int) (now : Int)
    (site : PVSite) (model_path : String) (ts : Option String) :
    Except Err (List PredRow) × Nat :=
  match solarPowerPredictorInit model_path with
  | .error e => (.error e, 0)
  | .ok _ =>
    match ts with
    | none =>
      let start_date := strftimeDate now
      let start_time := now - now % 900
      let end_time := start_time + 48 * 3600
      let predictions := predictPower site.latitude site.longitude start_date
        site.capacity_kwp site.orientation site.tilt
      (.ok (predictions.filter
        (fun r => decide (start_time ≤ r.1) && decide (r.1 < end_time))), 1)
    | some s =>
      match toDatetime s with
      | none => (.error .valueError, 0)
      | some start_time =>
        let _end_time := start_time + 48 * 3600
        -- predict_power_output(..., start_date=start_date, ...): unbound local
        (.error .nameError, 0)

/-- A well-formed response bucket describing N timesteps for a request list
V: positive interval, end = start + N * interval, at least as many value
arrays as requested variables, each array of length N; the request list
itself is well-formed (no duplicates and not clashing with the synthetic
date column). -/
def WellFormedBucket (b : TimeBucket) (V : List String) (N : Nat) : Prop :=
  0 < b.interval ∧ b.timeEnd = b.time + N * b.interval ∧
  V.length ≤ b.varArrays.length ∧ (∀ a ∈ b.varArrays, a.length = N) ∧
  V.Nodup ∧ "date" ∉ V

/-! ## Concrete instances used by the witnesses -/

/-- A response with no buckets at all. -/
def emptyResponse : Response := ⟨none, none⟩

/-- A fetch oracle always returning the empty response. -/
def emptyFetch : Fetch := fun _ _ => emptyResponse

/-- A one-timestep hourly response carrying 25 singleton value arrays. -/
def respW1 : Response :=
  ⟨some ⟨0, 3600, 3600, List.replicate 25 [(1 : ℚ)]⟩, none⟩

/-- A fetch oracle returning `respW1`. -/
def fetchW1 : Fetch := fun _ _ => respW1

/-- The table `process_hourly_data` produces from `respW1` under the
25-variable hourly request. -/
def tableW1 : Table :=
  ⟨("date", [Value.time 0]) :: HOURLY_VARIABLES.map (fun v => (v, [Value.num 1]))⟩

/-- A two-timestep hourly bucket with three value arrays of length two. -/
def bucketW4 : TimeBucket := ⟨0, 1800, 900, [[1, 2], [3, 4], [5, 6]]⟩

/-- A response holding `bucketW4`. -/
def respW4 : Response := ⟨some bucketW4, none⟩

/-- A params dict requesting two variables on the hourly key. -/
def paramsW4 : Params :=
  ⟨0, 0, some ["temperature_2m", "precipitation"], none, none,
    "2024-01-01", "2024-01-02"⟩

/-- An hourly bucket with no value arrays at all. -/
def respW6 : Response := ⟨some ⟨0, 3600, 3600, []⟩, none⟩

/-- A two-row weather table with a date and a temperature column. -/
def tableW8 : Table :=
  ⟨[("date", [Value.time 0, Value.time 900]),
    ("temperature_2m", [Value.num 1, Value.num 2])]⟩

/-- A predictor oracle with rows on both sides of the 48-hour boundary. -/
def ppW : ℚ → ℚ → String → ℚ → ℚ → ℚ → List PredRow :=
  fun _ _ _ _ _ _ => [(0, 1), (900, 2), (172800, 3), (200000, 4)]

/-- A timestamp parser oracle accepting everything. -/
def tdW : String → Option Int := fun _ => some 0

/-- A site at the origin. -/
def siteW : PVSite := ⟨0, 0, 0, 0, 0⟩

/-! ## Helper lemmas -/

theorem dictInsert_fresh {α : Type} (d : List (String × α)) (k : String) (v : α)
    (h : ∀ p ∈ d, p.1 ≠ k) : dictInsert d k v = d ++ [(k, v)] := by
  unfold dictInsert
  rw [if_neg]
  simp only [List.any_eq_true, decide_eq_true_eq, not_exists]
  intro p
  rw [not_and]
  exact h p

theorem get?_some_of_lt {α : Type} (l : List α) (i : Nat) (h : i < l.length) :
    ∃ a, l.get? i = some a := by
  cases hg : l.get? i with
  | none => rw [List.get?_eq_none] at hg; omega
  | some a => exact ⟨a, rfl⟩

theorem attachVariables_err (arrays : List (List ℚ)) :
    ∀ (vars : List String) (i : Nat) (acc : Dict), vars ≠ [] →
      arrays.length < i + vars.length →
      attachVariables arrays vars i acc = .error .malformedResponse := by
  intro vars
  induction vars with
  | nil => intro i acc h; exact absurd rfl h
  | cons v rest ih =>
    intro i acc _ hlen
    by_cases hi : i < arrays.length
    · obtain ⟨a, ha⟩ := get?_some_of_lt arrays i hi
      unfold attachVariables
      rw [ha]
      have hrest : rest ≠ [] := by
        intro hr
        rw [hr] at hlen
        simp at hlen
        omega
      exact ih (i + 1) _ hrest (by simp at hlen ⊢; omega)
    · have hn : arrays.get? i = none := List.get?_eq_none.mpr (by omega)
      unfold attachVariables
      rw [hn]

theorem attachVariables_ok (arrays : List (List ℚ)) (N : Nat)
    (hN : ∀ a ∈ arrays, a.length = N) :
    ∀ (vars : List String) (i : Nat) (acc : Dict),
      vars.Nodup → (∀ v ∈ vars, ∀ p ∈ acc, p.1 ≠ v) →
      i + vars.length ≤ arrays.length →
      (∀ c ∈ acc, c.2.length = N) →
      ∃ res, attachVariables arrays vars i acc = .ok res ∧
        res.map Prod.fst = acc.map Prod.fst ++ vars ∧
        (∀ c ∈ res, c.2.length = N) := by
  intro vars
  induction vars with
  | nil =>
    intro i acc _ _ _ hacc
    exact ⟨acc, rfl, by simp, hacc⟩
  | cons v rest ih =>
    intro i acc hnd hfresh hlen hacc
    have hi : i < arrays.length := by simp at hlen; omega
    obtain ⟨a, ha⟩ := get?_some_of_lt arrays i hi
    have haN : a.length = N := hN a (List.get?_mem ha)
    have hvfresh : ∀ p ∈ acc, p.1 ≠ v := fun p hp => hfresh v (by simp) p hp
    have hnotrest : v ∉ rest := (List.nodup_cons.mp hnd).1
    obtain ⟨res, h1, h2, h3⟩ := ih (i + 1) (acc ++ [(v, a.map Value.num)])
      (List.nodup_cons.mp hnd).2
      (by
        intro u hu p hp
        rcases List.mem_append.mp hp with hp1 | hp2
        · exact hfresh u (by simp [hu]) p hp1
        · have : p = (v, a.map Value.num) := by simpa using hp2
          rw [this]
          intro hvu
          exact hnotrest (by simpa [← hvu] using hu))
      (by simp at hlen ⊢; omega)
      (by
        intro c hc
        rcases List.mem_append.mp hc with hc1 | hc2
        · exact hacc c hc1
        · have : c = (v, a.map Value.num) := by simpa using hc2
          rw [this]
          simpa using haN)
    refine ⟨res, ?_, ?_, h3⟩
    · unfold attachVariables
      rw [ha]
      show attachVariables arrays rest (i + 1) (dictInsert acc v (a.map Value.num)) = .ok res
      rw [dictInsert_fresh acc v (a.map Value.num) hvfresh]
      exact h1
    · rw [h2]
      simp

theorem mapM_option_some_append {α β : Type} (f : α → Option β) (l1 l2 : List α)
    (b1 b2 : List β) (h1 : l1.mapM f = some b1) (h2 : l2.mapM f = some b2) :
    (l1 ++ l2).mapM f = some (b1 ++ b2) := by
  induction l1 generalizing b1 with
  | nil =>
    simp only [List.mapM_nil] at h1
    cases h1
    simpa using h2
  | cons a l ih =>
    rw [List.mapM_cons] at h1
    cases hfa : f a with
    | none => rw [hfa] at h1; simp at h1
    | some b =>
      rw [hfa] at h1
      cases hlm : l.mapM f with
      | none => rw [hlm] at h1; simp at h1
      | some bs =>
        rw [hlm] at h1
        simp only [Option.bind_eq_bind, Option.some_bind, Option.pure_def,
          Option.some.injEq] at h1
        rw [List.cons_append, List.mapM_cons, hfa, ih bs hlm]
        simp [← h1]

theorem mapM_find?_names (rest : Dict) :
    ∀ (cs pre : Dict), (cs.map Prod.fst).Nodup →
      (∀ c ∈ cs, ∀ p ∈ pre, p.1 ≠ c.1) →
      (cs.map Prod.fst).mapM
        (fun nm => ((pre ++ cs) ++ rest).find? (fun c => decide (c.1 = nm))) = some cs := by
  intro cs
  induction cs with
  | nil =>
    intro pre _ _
    rw [List.map_nil, List.mapM_nil]
    rfl
  | cons c cs2 ih =>
    intro pre hnd hpre
    have hfind : ((pre ++ (c :: cs2)) ++ rest).find? (fun x => decide (x.1 = c.1)) = some c := by
      rw [List.append_assoc, List.find?_append]
      have hpre0 : pre.find? (fun x => decide (x.1 = c.1)) = none := by
        rw [List.find?_eq_none]
        intro p hp
        simpa using hpre c (by simp) p hp
      rw [hpre0, Option.none_or, List.cons_append, List.find?_cons]
      simp
    rw [List.map_cons, List.mapM_cons, hfind]
    have hpre2 : ∀ u ∈ cs2, ∀ p ∈ pre ++ [c], p.1 ≠ u.1 := by
      intro u hu p hp
      rcases List.mem_append.mp hp with hp1 | hp2
      · exact hpre u (by simp [hu]) p hp1
      · have hpc : p = c := by simpa using hp2
        rw [hpc]
        have : c.1 ∉ cs2.map Prod.fst := (List.nodup_cons.mp hnd).1
        intro he
        exact this (he ▸ List.mem_map_of_mem Prod.fst hu)
    have harr : (pre ++ [c]) ++ cs2 = pre ++ (c :: cs2) := by simp
    have := ih (pre ++ [c]) (List.nodup_cons.mp hnd).2 hpre2
    rw [harr] at this
    rw [this]
    simp

theorem nRowsL_append_replicate (d : Dict) (k : String) (x : Value) :
    nRowsL (d ++ [(k, List.replicate (nRowsL d) x)]) = nRowsL d := by
  cases d with
  | nil => simp [nRowsL]
  | cons c cs => simp [nRowsL]

theorem dateRangeLeft_length (start interval : Int) (N : Nat) (hpos : 0 < interval) :
    (dateRangeLeft start (start + N * interval) interval).length = N := by
  unfold dateRangeLeft numStepsLeft
  have h1 : start + (N : Int) * interval - start = (N : Int) * interval := by ring
  rw [if_pos ⟨hpos, by rw [h1]; positivity⟩, h1,
    if_pos (Int.mul_emod_left N interval),
    Int.mul_ediv_cancel (N : Int) (ne_of_gt hpos)]
  rw [List.length_map, List.length_range, Int.toNat_natCast]

theorem nRowsL_append_single (d : Dict) (k : String) (v : List Value)
    (hv : v.length = nRowsL d) : nRowsL (d ++ [(k, v)]) = nRowsL d := by
  cases d with
  | nil => simpa [nRowsL] using hv
  | cons c cs => simp [nRowsL]

/-! ## Claim theorems -/

/-- C2: coordinate validation raises `InvalidCoordinateError` if and only if
the latitude is outside [-90, 90] or the longitude is outside [-180, 180],
and whenever it raises, each of the three public WeatherService operations
returns that error without having issued any client fetch (empty request
trace, cache untouched). -/
theorem validate_coordinates_spec :
    (∀ lat lon : ℚ, validate_coordinates lat lon = .error .invalidCoordinate ↔
      (lat < -90 ∨ 90 < lat ∨ lon < -180 ∨ 180 < lon))
    ∧ (∀ (lat lon : ℚ) (sd ed : String) (fetch : Fetch) (cache : Cache),
        validate_coordinates lat lon = .error .invalidCoordinate →
        get_hourly_weather fetch cache lat lon sd ed = (.error .invalidCoordinate, cache, [])
        ∧ get_minutely_weather fetch lat lon sd ed = (.error .invalidCoordinate, [])
        ∧ get_historical_weather fetch lat lon sd ed = (.error .invalidCoordinate, [])) := by
  constructor
  · intro lat lon
    unfold validate_coordinates
    by_cases h : (-90 ≤ lat ∧ lat ≤ 90 ∧ -180 ≤ lon ∧ lon ≤ 180)
    · rw [if_neg (not_not_intro h)]
      obtain ⟨h1, h2, h3, h4⟩ := h
      constructor
      · intro hx
        exact absurd hx (by simp)
      · intro hd
        rcases hd with hh | hh | hh | hh <;> linarith
    · rw [if_pos h]
      constructor
      · intro _
        by_contra hc
        push_neg at hc
        exact h ⟨hc.1, hc.2.1, hc.2.2.1, hc.2.2.2⟩
      · intro _
        rfl
  · intro lat lon sd ed fetch cache hv
    refine ⟨?_, ?_, ?_⟩ <;>
      simp [get_hourly_weather, get_minutely_weather, get_historical_weather, hv]

/-- C2 witness: out-of-range latitude 200 is rejected with no fetch. -/
theorem validate_coordinates_spec_witness :
    get_hourly_weather emptyFetch [] 200 0 "2024-01-01" "2024-01-02"
      = (.error .invalidCoordinate, [], []) :=
  (validate_coordinates_spec.2 200 0 "2024-01-01" "2024-01-02" emptyFetch []
    (by decide)).1

/-- C3: date-range validation fails with the single kind
`InvalidDateFormatError` exactly when one of the strings fails to parse in
the fixed YYYY-MM-DD format or the parsed end date is strictly before the
parsed start date; when both parse and end ≥ start it returns without
error, and no other error kind can be produced. -/
theorem validate_date_format_spec (sd ed : String) :
    (validate_date_format sd ed = .error .invalidDateFormat ↔
      strptimeYmd sd = none ∨ strptimeYmd ed = none ∨
        (∃ s e, strptimeYmd sd = some s ∧ strptimeYmd ed = some e ∧ dateLt e s = true))
    ∧ (∀ s e, strptimeYmd sd = some s → strptimeYmd ed = some e → dateLt e s = false →
        validate_date_format sd ed = .ok ())
    ∧ (∀ r, validate_date_format sd ed = .error r → r = .invalidDateFormat) := by
  rcases hs : strptimeYmd sd with _ | s <;> rcases he : strptimeYmd ed with _ | e
  · refine ⟨⟨fun _ => Or.inl rfl, fun _ => by simp [validate_date_format, hs, he]⟩, ?_, ?_⟩
    · intro s2 e2 hs2 he2 _
      exact absurd hs2 (by simp)
    · intro r hr
      simp only [validate_date_format, hs, he] at hr
      exact (Except.error.inj hr).symm
  · refine ⟨⟨fun _ => Or.inl rfl, fun _ => by simp [validate_date_format, hs, he]⟩, ?_, ?_⟩
    · intro s2 e2 hs2 he2 _
      exact absurd hs2 (by simp)
    · intro r hr
      simp only [validate_date_format, hs, he] at hr
      exact (Except.error.inj hr).symm
  · refine ⟨⟨fun _ => Or.inr (Or.inl rfl), fun _ => by simp [validate_date_format, hs, he]⟩, ?_, ?_⟩
    · intro s2 e2 hs2 he2 _
      exact absurd he2 (by simp)
    · intro r hr
      simp only [validate_date_format, hs, he] at hr
      exact (Except.error.inj hr).symm
  · cases hd : dateLt e s with
    | false =>
      refine ⟨?_, ?_, ?_⟩
      · constructor
        · intro hcon
          simp [validate_date_format, hs, he, hd] at hcon
        · intro hrhs
          rcases hrhs with hh | hh | ⟨s2, e2, hs2, he2, hd2⟩
          · exact absurd hh (by simp)
          · exact absurd hh (by simp)
          · cases Option.some.inj hs2
            cases Option.some.inj he2
            rw [hd] at hd2
            exact absurd hd2 (by simp)
      · intro s2 e2 hs2 he2 _
        cases Option.some.inj hs2
        cases Option.some.inj he2
        simp [validate_date_format, hs, he, hd]
      · intro r hr
        simp only [validate_date_format, hs, he] at hr
        rw [if_neg (by simp [hd])] at hr
        exact absurd hr (by simp)
    | true =>
      refine ⟨?_, ?_, ?_⟩
      · exact ⟨fun _ => Or.inr (Or.inr ⟨s, e, rfl, rfl, hd⟩),
          fun _ => by simp [validate_date_format, hs, he, hd]⟩
      · intro s2 e2 hs2 he2 hd2
        cases Option.some.inj hs2
        cases Option.some.inj he2
        rw [hd] at hd2
        exact absurd hd2 (by simp)
      · intro r hr
        simp only [validate_date_format, hs, he] at hr
        rw [if_pos hd] at hr
        exact (Except.error.inj hr).symm

/-- C3 witness: "2024-01-01" to "2024-01-02" passes validation, via the
pass-through component of the specification theorem. -/
theorem validate_date_format_spec_witness :
    validate_date_format "2024-01-01" "2024-01-02" = .ok () :=
  (validate_date_format_spec "2024-01-01" "2024-01-02").2.1
    ⟨2024, 1, 1⟩ ⟨2024, 1, 2⟩ (by decide) (by decide) (by decide)

/-- C5 counterexample: the variable list the historical (archive) fetch
sends under the hourly key is not the 25-variable hourly-forecast list —
the two requests issued at the same concrete arguments carry different
lists (17 vs 25 variables, differing already at index 9). -/
theorem historical_variables_counterexample :
    ((get_weather_data_historical emptyFetch 0 0 "2024-01-01" "2024-01-02").2.map
        (fun c => c.2.hourly) = [some HISTORICAL_VARIABLES])
    ∧ ((get_hourly_weather_data_with_forecast emptyFetch [] 0 0 "2024-01-01"
          "2024-01-02").2.2.map (fun c => c.2.hourly) = [some HOURLY_VARIABLES])
    ∧ HISTORICAL_VARIABLES ≠ HOURLY_VARIABLES
    ∧ HISTORICAL_VARIABLES.length = 17 ∧ HOURLY_VARIABLES.length = 25
    ∧ HISTORICAL_VARIABLES.get? 9 = some "wind_speed_10m"
    ∧ HOURLY_VARIABLES.get? 9 = some "visibility" := by
  refine ⟨rfl, rfl, by decide, by decide, by decide, by decide, by decide⟩

/-- C5 amended: the historical fetch requests, under the hourly key, the
same ordered 17-variable list as the 15-minute fetch — a subset of the
25-variable hourly list, not the hourly list itself. -/
theorem historical_variables_amended :
    HISTORICAL_VARIABLES = MINUTELY_15_VARIABLES
    ∧ (∀ v ∈ HISTORICAL_VARIABLES, v ∈ HOURLY_VARIABLES)
    ∧ ((get_weather_data_historical emptyFetch 0 0 "2024-01-01" "2024-01-02").2.map
        (fun c => c.2.hourly) = [some HISTORICAL_VARIABLES])
    ∧ ((get_15_minutely_weather_data_with_forecast emptyFetch 0 0 "2024-01-01"
          "2024-01-02").2.map (fun c => c.2.minutely_15) = [some MINUTELY_15_VARIABLES]) := by
  refine ⟨by decide, by decide, rfl, rfl⟩

/-- C5 amended witness: a sample shared variable, via the subset component
of the amended theorem. -/
theorem historical_variables_amended_witness :
    "shortwave_radiation" ∈ HOURLY_VARIABLES :=
  historical_variables_amended.2.1 "shortwave_radiation" (by decide)

/-- C7 (divergence witness): with the current date 2026-10-12, a request
whose start date 2024-01-01 lies more than 3 months in the past does not
proceed to assembled rows — `get_data` prints the notice, never assigns
`weather_data`, and the first feature assignment fails on the unbound local
(NameError), with no weather request issued. -/
theorem get_data_old_start_date_unbound_local :
    get_data emptyFetch (dateToSecs ⟨2026, 10, 12⟩) 51 0 "2024-01-01" 4 180 30
      = (.error .nameError, []) := by decide

/-- C9: on the branch that returns (ts = None), the forecast entry point
returns exactly the prediction rows whose date lies in
[start_time, start_time + 48h), start inclusive, end exclusive, where
start_time is the 15-minute-floored current time; membership in the
returned slice is equivalent to membership in the predictions together with
the two window bounds. -/
theorem run_xgboost_forecast_window
    (pp : ℚ → ℚ → String → ℚ → ℚ → ℚ → List PredRow)
    (td : String → Option Int) (now : Int) (site : PVSite) (mp : String)
    (hmp : solarPowerPredictorInit mp = .ok ()) :
    ((run_xgboost_forecast pp td now site mp none).1 =
      .ok ((pp site.latitude site.longitude (strftimeDate now) site.capacity_kwp
          site.orientation site.tilt).filter
        (fun r => decide (now - now % 900 ≤ r.1) &&
          decide (r.1 < now - now % 900 + 48 * 3600))))
    ∧ (∀ r : PredRow,
        r ∈ (pp site.latitude site.longitude (strftimeDate now) site.capacity_kwp
            site.orientation site.tilt).filter
          (fun q => decide (now - now % 900 ≤ q.1) &&
            decide (q.1 < now - now % 900 + 48 * 3600)) ↔
        (r ∈ pp site.latitude site.longitude (strftimeDate now) site.capacity_kwp
            site.orientation site.tilt ∧
          now - now % 900 ≤ r.1 ∧ r.1 < now - now % 900 + 48 * 3600)) := by
  constructor
  · simp [run_xgboost_forecast, hmp]
  · intro r
    rw [List.mem_filter]
    simp [and_assoc]

/-- C9 witness: with now = 0 the returned slice keeps exactly the rows with
dates 0 and 900 and drops 172800 (= 48h, excluded) and beyond. -/
theorem run_xgboost_forecast_window_witness :
    (run_xgboost_forecast ppW tdW 0 siteW "model.joblib" none).1 =
      .ok ((ppW siteW.latitude siteW.longitude (strftimeDate 0) siteW.capacity_kwp
          siteW.orientation siteW.tilt).filter
        (fun r => decide ((0 : Int) - 0 % 900 ≤ r.1) &&
          decide (r.1 < 0 - 0 % 900 + 48 * 3600))) :=
  (run_xgboost_forecast_window ppW tdW 0 siteW "model.joblib" (by decide)).1

/-- C10: with any non-None timestamp argument the forecast entry point
never completes — the predictor is not invoked (call count 0) and no ok
result is possible; when the model path is valid and the timestamp parses,
the failure is precisely the unbound-local NameError on `start_date`; and
any completed run implies the timestamp argument was None. -/
theorem run_xgboost_forecast_nonnone_ts_fails
    (pp : ℚ → ℚ → String → ℚ → ℚ → ℚ → List PredRow)
    (td : String → Option Int) (now : Int) (site : PVSite) (mp : String)
    (s : String) (ts : Option String) :
    ((run_xgboost_forecast pp td now site mp (some s)).2 = 0)
    ∧ (∀ r, (run_xgboost_forecast pp td now site mp (some s)).1 ≠ .ok r)
    ∧ (solarPowerPredictorInit mp = .ok () → ∀ t, td s = some t →
        (run_xgboost_forecast pp td now site mp (some s)).1 = .error .nameError)
    ∧ (∀ r, (run_xgboost_forecast pp td now site mp ts).1 = .ok r → ts = none) := by
  have hbase : ∀ s2 : String,
      (run_xgboost_forecast pp td now site mp (some s2)).2 = 0 ∧
      (∀ r, (run_xgboost_forecast pp td now site mp (some s2)).1 ≠ .ok r) := by
    intro s2
    rcases hinit : solarPowerPredictorInit mp with e | u
    · constructor <;> simp [run_xgboost_forecast, hinit]
    · rcases htd : td s2 with _ | t
      · constructor <;> simp [run_xgboost_forecast, hinit, htd]
      · constructor <;> simp [run_xgboost_forecast, hinit, htd]
  refine ⟨(hbase s).1, (hbase s).2, ?_, ?_⟩
  · intro hinit t htd
    simp [run_xgboost_forecast, hinit, htd]
  · intro r hok
    cases ts with
    | none => rfl
    | some s2 => exact absurd hok ((hbase s2).2 r)

/-- C10 witness: a concrete non-None timestamp with a valid model path ends
in the NameError with zero predictor invocations. -/
theorem run_xgboost_forecast_nonnone_ts_fails_witness :
    (run_xgboost_forecast ppW tdW 0 siteW "model.joblib" (some "2024-01-01")).1
      = .error .nameError :=
  (run_xgboost_forecast_nonnone_ts_fails ppW tdW 0 siteW "model.joblib"
    "2024-01-01" none).2.2.1 (by decide) 0 rfl

/-- C1: for in-range coordinates and a valid ordered date range, starting
from an empty cache, `get_hourly_weather` performs exactly validate, one
fetch against the forecast endpoint carrying the full 25-variable hourly
set, and one parse, returning the parser's table (and storing it in the
cache). -/
theorem get_hourly_weather_orchestration (fetch : Fetch) (lat lon : ℚ)
    (sd ed : String) (t : Table)
    (hlat : -90 ≤ lat ∧ lat ≤ 90) (hlon : -180 ≤ lon ∧ lon ≤ 180)
    (hdate : validate_date_format sd ed = .ok ())
    (hparse : process_hourly_data (fetch forecastUrl (hourlyParams lat lon sd ed))
        (hourlyParams lat lon sd ed) = .ok t) :
    get_hourly_weather fetch [] lat lon sd ed =
      (.ok t, [((forecastUrl, hourlyParams lat lon sd ed), t)],
        [(forecastUrl, hourlyParams lat lon sd ed)])
    ∧ (hourlyParams lat lon sd ed).hourly = some HOURLY_VARIABLES
    ∧ HOURLY_VARIABLES.length = 25 := by
  have hv : validate_coordinates lat lon = .ok () := by
    unfold validate_coordinates
    rw [if_neg (not_not_intro ⟨hlat.1, hlat.2, hlon.1, hlon.2⟩)]
  refine ⟨?_, rfl, by decide⟩
  simp [get_hourly_weather, hv, hdate, get_hourly_weather_data_with_forecast,
    getFromCacheUrlParams, saveToCache, hparse]

/-- C1 witness: a concrete fetch oracle with a one-timestep 25-variable
response flows through the validate-fetch-parse orchestration. -/
theorem get_hourly_weather_orchestration_witness :
    get_hourly_weather fetchW1 [] 51 0 "2024-01-01" "2024-01-02" =
      (.ok tableW1, [((forecastUrl, hourlyParams 51 0 "2024-01-01" "2024-01-02"), tableW1)],
        [(forecastUrl, hourlyParams 51 0 "2024-01-01" "2024-01-02")]) :=
  (get_hourly_weather_orchestration fetchW1 51 0 "2024-01-01" "2024-01-02" tableW1
    (by norm_num) (by norm_num) (by decide) (by decide)).1

/-- C6: parsing a response whose expected granularity bucket is absent, or
whose value arrays do not cover every requested variable, fails with the
malformed-response error and nothing else. -/
theorem process_hourly_data_absent_data (resp : Response) (p : Params)
    (V : List String) (hp : p.hourly = some V)
    (h : resp.hourly = none ∨
      ∃ b, resp.hourly = some b ∧ b.varArrays.length < V.length) :
    process_hourly_data resp p = .error .malformedResponse := by
  rcases h with h | ⟨b, hb, hlen⟩
  · simp [process_hourly_data, h]
  · have hne : V ≠ [] := by
      intro hV
      rw [hV] at hlen
      simp at hlen
    have herr := attachVariables_err b.varArrays V 0
      [("date", (dateRangeLeft b.time b.timeEnd b.interval).map Value.time)]
      hne (by omega)
    simp [process_hourly_data, hb, hp, herr]

/-- C6 witness: a response with an hourly bucket but no value arrays fails
the 25-variable hourly request with the malformed-response error. -/
theorem process_hourly_data_absent_data_witness :
    process_hourly_data respW6 (hourlyParams 0 0 "2024-01-01" "2024-01-02")
      = .error .malformedResponse :=
  process_hourly_data_absent_data respW6 _ HOURLY_VARIABLES rfl
    (Or.inr ⟨⟨0, 3600, 3600, []⟩, rfl, by decide⟩)

/-- C4: for a well-formed payload whose bucket describes N timesteps
(end = start + N * interval) and a requested variable list V, parsing
succeeds and produces a table whose columns are exactly the date column
followed by V in request order, with every column of length N (so exactly
N rows). -/
theorem process_hourly_data_round_trip (resp : Response) (p : Params)
    (b : TimeBucket) (V : List String) (N : Nat)
    (hb : resp.hourly = some b) (hp : p.hourly = some V)
    (hwf : WellFormedBucket b V N) :
    ∃ t, process_hourly_data resp p = .ok t ∧
      t.cols.map Prod.fst = "date" :: V ∧
      (∀ c ∈ t.cols, c.2.length = N) ∧ nRowsT t = N := by
  obtain ⟨hpos, hend, hlenV, hN, hnd, hdateV⟩ := hwf
  have hdates : (dateRangeLeft b.time b.timeEnd b.interval).length = N := by
    rw [hend]
    exact dateRangeLeft_length b.time b.interval N hpos
  obtain ⟨res, h1, h2, h3⟩ := attachVariables_ok b.varArrays N hN V 0
    [("date", (dateRangeLeft b.time b.timeEnd b.interval).map Value.time)]
    hnd
    (by
      intro v hv pq hpq
      have hpq2 : pq = ("date", (dateRangeLeft b.time b.timeEnd b.interval).map Value.time) := by
        simpa using hpq
      rw [hpq2]
      intro hcon
      exact hdateV (by rw [show ("date" : String) = v from hcon]; exact hv))
    (by omega)
    (by
      intro c hc
      have hc2 : c = ("date", (dateRangeLeft b.time b.timeEnd b.interval).map Value.time) := by
        simpa using hc
      rw [hc2]
      simpa using hdates)
  rw [show List.map Prod.fst
      [("date", (dateRangeLeft b.time b.timeEnd b.interval).map Value.time)] = ["date"]
    from rfl] at h2
  cases res with
  | nil => simp at h2
  | cons c rest =>
    have hcall : rest.all (fun q => decide (q.2.length = c.2.length)) = true := by
      rw [List.all_eq_true]
      intro q hq
      rw [decide_eq_true_eq, h3 q (by simp [hq]), h3 c (by simp)]
    refine ⟨⟨c :: rest⟩, ?_, by simpa using h2, by simpa using h3, ?_⟩
    · simp only [process_hourly_data, hb, hp, h1]
      obtain ⟨ck, cv⟩ := c
      simp [mkDataFrame, hcall]
    · show c.2.length = N
      exact h3 c (by simp)

/-- C4 witness: a two-timestep bucket with two requested variables parses
to a table with columns date, temperature_2m, precipitation, each of
length 2. -/
theorem process_hourly_data_round_trip_witness :
    ∃ t, process_hourly_data respW4 paramsW4 = .ok t ∧
      t.cols.map Prod.fst = "date" :: ["temperature_2m", "precipitation"] ∧
      (∀ c ∈ t.cols, c.2.length = 2) ∧ nRowsT t = 2 :=
  process_hourly_data_round_trip respW4 paramsW4 bucketW4
    ["temperature_2m", "precipitation"] 2 rfl rfl
    ⟨by decide, by decide, by decide, by decide, by decide, by decide⟩

/-- C8: for a weather table whose column names avoid the panel names and
are duplicate-free, the feature-assembly step produces exactly the five
panel columns latitude_rounded, longitude_rounded, orientation, tilt, kwp —
each the supplied site value broadcast over every row — followed by the
original weather columns unchanged and in their original order. -/
theorem panel_assembly (wd : Table) (lat lon ori tilt kwp : ℚ)
    (hfresh : ∀ c ∈ wd.cols, c.1 ∉ PANEL_COLUMNS)
    (hnd : (wd.cols.map Prod.fst).Nodup) :
    panelAssemble wd lat lon ori tilt kwp =
      .ok ⟨[("latitude_rounded", List.replicate (nRowsT wd) (Value.num lat)),
            ("longitude_rounded", List.replicate (nRowsT wd) (Value.num lon)),
            ("orientation", List.replicate (nRowsT wd) (Value.num ori)),
            ("tilt", List.replicate (nRowsT wd) (Value.num tilt)),
            ("kwp", List.replicate (nRowsT wd) (Value.num kwp))] ++ wd.cols⟩ := by
  have hfr : ∀ s ∈ PANEL_COLUMNS, ∀ p ∈ wd.cols, p.1 ≠ s := by
    intro s hs p hp he
    exact hfresh p hp (by rw [he]; exact hs)
  have step : ∀ (tail : Dict) (k : String) (v : List Value),
      (∀ p ∈ tail, p.1 ≠ k) → k ∈ PANEL_COLUMNS →
      dictInsert (wd.cols ++ tail) k v = wd.cols ++ (tail ++ [(k, v)]) := by
    intro tail k v htail hk
    have hfreshk : ∀ p ∈ wd.cols ++ tail, p.1 ≠ k := by
      intro p hp
      rcases List.mem_append.mp hp with h | h
      · exact hfr k hk p h
      · exact htail p h
    rw [dictInsert_fresh _ _ _ hfreshk, List.append_assoc]
  have hrgen : ∀ tail : Dict,
      nRowsL (wd.cols ++
        (("latitude_rounded", List.replicate (nRowsL wd.cols) (Value.num lat)) :: tail))
        = nRowsL wd.cols := by
    intro tail
    cases wd.cols with
    | nil => simp [nRowsL]
    | cons c cs => simp [nRowsL]
  simp only [panelAssemble, nRowsT]
  rw [dictInsert_fresh wd.cols "latitude_rounded" _ (hfr _ (by decide)), hrgen []]
  rw [step [("latitude_rounded", List.replicate (nRowsL wd.cols) (Value.num lat))]
    "longitude_rounded" (List.replicate (nRowsL wd.cols) (Value.num lon))
    (by
      intro p hp
      rw [List.mem_singleton.mp hp]
      simp)
    (by decide)]
  simp only [List.cons_append, List.nil_append]
  rw [hrgen [("longitude_rounded", List.replicate (nRowsL wd.cols) (Value.num lon))]]
  rw [step [("latitude_rounded", List.replicate (nRowsL wd.cols) (Value.num lat)),
      ("longitude_rounded", List.replicate (nRowsL wd.cols) (Value.num lon))]
    "orientation" (List.replicate (nRowsL wd.cols) (Value.num ori))
    (by
      intro p hp
      rcases (by simpa using hp :
        p = ("latitude_rounded", List.replicate (nRowsL wd.cols) (Value.num lat)) ∨
        p = ("longitude_rounded", List.replicate (nRowsL wd.cols) (Value.num lon)))
        with rfl | rfl <;> simp)
    (by decide)]
  simp only [List.cons_append, List.nil_append]
  rw [hrgen [("longitude_rounded", List.replicate (nRowsL wd.cols) (Value.num lon)),
    ("orientation", List.replicate (nRowsL wd.cols) (Value.num ori))]]
  rw [step [("latitude_rounded", List.replicate (nRowsL wd.cols) (Value.num lat)),
      ("longitude_rounded", List.replicate (nRowsL wd.cols) (Value.num lon)),
      ("orientation", List.replicate (nRowsL wd.cols) (Value.num ori))]
    "tilt" (List.replicate (nRowsL wd.cols) (Value.num tilt))
    (by
      intro p hp
      rcases (by simpa using hp :
        p = ("latitude_rounded", List.replicate (nRowsL wd.cols) (Value.num lat)) ∨
        p = ("longitude_rounded", List.replicate (nRowsL wd.cols) (Value.num lon)) ∨
        p = ("orientation", List.replicate (nRowsL wd.cols) (Value.num ori)))
        with rfl | rfl | rfl <;> simp)
    (by decide)]
  simp only [List.cons_append, List.nil_append]
  rw [hrgen [("longitude_rounded", List.replicate (nRowsL wd.cols) (Value.num lon)),
    ("orientation", List.replicate (nRowsL wd.cols) (Value.num ori)),
    ("tilt", List.replicate (nRowsL wd.cols) (Value.num tilt))]]
  rw [step [("latitude_rounded", List.replicate (nRowsL wd.cols) (Value.num lat)),
      ("longitude_rounded", List.replicate (nRowsL wd.cols) (Value.num lon)),
      ("orientation", List.replicate (nRowsL wd.cols) (Value.num ori)),
      ("tilt", List.replicate (nRowsL wd.cols) (Value.num tilt))]
    "kwp" (List.replicate (nRowsL wd.cols) (Value.num kwp))
    (by
      intro p hp
      rcases (by simpa using hp :
        p = ("latitude_rounded", List.replicate (nRowsL wd.cols) (Value.num lat)) ∨
        p = ("longitude_rounded", List.replicate (nRowsL wd.cols) (Value.num lon)) ∨
        p = ("orientation", List.replicate (nRowsL wd.cols) (Value.num ori)) ∨
        p = ("tilt", List.replicate (nRowsL wd.cols) (Value.num tilt)))
        with rfl | rfl | rfl | rfl <;> simp)
    (by decide)]
  simp only [List.cons_append, List.nil_append]
  -- the frame is now wd.cols followed by the five broadcast panel columns
  have hpanelfst :
      ([("latitude_rounded", List.replicate (nRowsL wd.cols) (Value.num lat)),
        ("longitude_rounded", List.replicate (nRowsL wd.cols) (Value.num lon)),
        ("orientation", List.replicate (nRowsL wd.cols) (Value.num ori)),
        ("tilt", List.replicate (nRowsL wd.cols) (Value.num tilt)),
        ("kwp", List.replicate (nRowsL wd.cols) (Value.num kwp))] : Dict).map Prod.fst
        = PANEL_COLUMNS := rfl
  have hfilter : ((wd.cols ++
      [("latitude_rounded", List.replicate (nRowsL wd.cols) (Value.num lat)),
        ("longitude_rounded", List.replicate (nRowsL wd.cols) (Value.num lon)),
        ("orientation", List.replicate (nRowsL wd.cols) (Value.num ori)),
        ("tilt", List.replicate (nRowsL wd.cols) (Value.num tilt)),
        ("kwp", List.replicate (nRowsL wd.cols) (Value.num kwp))]).map Prod.fst).filter
          (fun c => !decide (c ∈ PANEL_COLUMNS)) = wd.cols.map Prod.fst := by
    rw [List.map_append, List.filter_append, hpanelfst]
    have h1 : (wd.cols.map Prod.fst).filter (fun c => !decide (c ∈ PANEL_COLUMNS))
        = wd.cols.map Prod.fst := by
      rw [List.filter_eq_self]
      intro a ha
      obtain ⟨c, hc, rfl⟩ := List.mem_map.mp ha
      simpa using hfresh c hc
    have h2 : PANEL_COLUMNS.filter (fun c => !decide (c ∈ PANEL_COLUMNS)) = [] := by
      decide
    rw [h1, h2, List.append_nil]
  rw [hfilter]
  have hsel1 : PANEL_COLUMNS.mapM
      (fun nm => (wd.cols ++
        [("latitude_rounded", List.replicate (nRowsL wd.cols) (Value.num lat)),
          ("longitude_rounded", List.replicate (nRowsL wd.cols) (Value.num lon)),
          ("orientation", List.replicate (nRowsL wd.cols) (Value.num ori)),
          ("tilt", List.replicate (nRowsL wd.cols) (Value.num tilt)),
          ("kwp", List.replicate (nRowsL wd.cols) (Value.num kwp))]).find?
        (fun c => decide (c.1 = nm))) = some
        [("latitude_rounded", List.replicate (nRowsL wd.cols) (Value.num lat)),
          ("longitude_rounded", List.replicate (nRowsL wd.cols) (Value.num lon)),
          ("orientation", List.replicate (nRowsL wd.cols) (Value.num ori)),
          ("tilt", List.replicate (nRowsL wd.cols) (Value.num tilt)),
          ("kwp", List.replicate (nRowsL wd.cols) (Value.num kwp))] := by
    have h := mapM_find?_names []
      [("latitude_rounded", List.replicate (nRowsL wd.cols) (Value.num lat)),
        ("longitude_rounded", List.replicate (nRowsL wd.cols) (Value.num lon)),
        ("orientation", List.replicate (nRowsL wd.cols) (Value.num ori)),
        ("tilt", List.replicate (nRowsL wd.cols) (Value.num tilt)),
        ("kwp", List.replicate (nRowsL wd.cols) (Value.num kwp))]
      wd.cols
      (by rw [hpanelfst]; decide)
      (by
        intro c hc p hp
        have hcp : c.1 ∈ PANEL_COLUMNS := by
          rw [← hpanelfst]
          exact List.mem_map_of_mem Prod.fst hc
        exact hfr c.1 hcp p hp)
    rw [hpanelfst] at h
    simpa using h
  have hsel2 : (wd.cols.map Prod.fst).mapM
      (fun nm => (wd.cols ++
        [("latitude_rounded", List.replicate (nRowsL wd.cols) (Value.num lat)),
          ("longitude_rounded", List.replicate (nRowsL wd.cols) (Value.num lon)),
          ("orientation", List.replicate (nRowsL wd.cols) (Value.num ori)),
          ("tilt", List.replicate (nRowsL wd.cols) (Value.num tilt)),
          ("kwp", List.replicate (nRowsL wd.cols) (Value.num kwp))]).find?
        (fun c => decide (c.1 = nm))) = some wd.cols := by
    have h := mapM_find?_names
      [("latitude_rounded", List.replicate (nRowsL wd.cols) (Value.num lat)),
        ("longitude_rounded", List.replicate (nRowsL wd.cols) (Value.num lon)),
        ("orientation", List.replicate (nRowsL wd.cols) (Value.num ori)),
        ("tilt", List.replicate (nRowsL wd.cols) (Value.num tilt)),
        ("kwp", List.replicate (nRowsL wd.cols) (Value.num kwp))]
      wd.cols [] hnd
      (by intro c hc p hp; exact absurd hp (List.not_mem_nil p))
    simpa using h
  have hsel := mapM_option_some_append _ PANEL_COLUMNS (wd.cols.map Prod.fst)
    _ _ hsel1 hsel2
  simp only [selectCols]
  rw [hsel]
  simp only [List.cons_append, List.nil_append]

/-- C8 witness: a two-row table with a date and a temperature column,
assembled with latitude 51, longitude 0, orientation 180, tilt 30, and
kwp 4. -/
theorem panel_assembly_witness :
    panelAssemble tableW8 51 0 180 30 4 =
      .ok ⟨[("latitude_rounded", List.replicate (nRowsT tableW8) (Value.num 51)),
            ("longitude_rounded", List.replicate (nRowsT tableW8) (Value.num 0)),
            ("orientation", List.replicate (nRowsT tableW8) (Value.num 180)),
            ("tilt", List.replicate (nRowsT tableW8) (Value.num 30)),
            ("kwp", List.replicate (nRowsT tableW8) (Value.num 4))] ++ tableW8.cols⟩ :=
  panel_assembly tableW8 51 0 180 30 4 (by decide) (by decide)

end QSF
